import Mathlib

/-!
Verification development for the Speak-Today realtime voice-coaching client.

The embedding models the realtime session manager `GeminiLiveService`
(src/unnamed/part_001, the design variant with the `isActive` liveness flag
and the `reconnecting` status) and the audio codec utilities described in
the specification.  Stateful TypeScript methods become explicit
state-passing functions; caller callbacks become an output list of
`Callback` values; machine integers and audio clock times become `Int`,
`Nat` and `ℚ` with explicit reductions where overflow matters.
-/

namespace SpeakToday

/-- Role tag of a transcription callback: the human speaker or the remote model. -/
inductive Role where
  | user
  | model
deriving DecidableEq, Repr

/-- Connection status values of `onStatusChange`
(`'connecting' | 'open' | 'closed' | 'error' | 'reconnecting'`).
The TypeScript literal `'open'` is rendered `opened` because `open` is a
reserved word in Lean. -/
inductive Status where
  | connecting
  | opened
  | closed
  | error
  | reconnecting
deriving DecidableEq, Repr

/-- One invocation of a caller-supplied callback
(`onTranscriptionUpdate` or `onStatusChange`). -/
inductive Callback where
  | transcriptionUpdate (role : Role) (text : String) (isComplete : Bool)
  | statusChange (status : Status) (message : Option String)
deriving DecidableEq, Repr

/-! ## Audio codec utilities

Modelled from the spec: the file `utils/audioUtils.ts` is imported by the
session manager but is not present in the repository snapshot, so `encode`
(and the `createBlob` wrapper used by the capture pipeline) are modelled
from the specification, §4.1: "`encode(samples: sequence of float in
[-1,1]) -> binary PCM16LE blob`: clamps each sample to [-1,1], scales to
signed 16-bit range, serializes little-endian. Pure, stateless,
deterministic", with the worked example
`encode([0.5, -1.0, 1.5]) → 0x3FFF, 0x8000, 0x7FFF`. -/

/-- Clamp one float sample to the interval [-1, 1]. -/
def clampSample (x : ℚ) : ℚ := if x < -1 then -1 else if 1 < x then 1 else x

/-- Scale a clamped sample `c` to the signed 16-bit range: negative samples
scale by 32768 (so -1 maps to -32768 = 0x8000), nonnegative samples scale
by 32767 (so 1, and everything clamped down to 1, maps to 0x7FFF).  The
float→Int16 store truncates toward zero; on the reduced fraction
`c.num / c.den` the truncation of `c * k` is `Int.tdiv (c.num * k) c.den`. -/
def scaleTo16 (c : ℚ) : Int :=
  if c < 0 then Int.tdiv (c.num * 32768) (c.den : Int)
  else Int.tdiv (c.num * 32767) (c.den : Int)

/-- Convert one float sample to its signed 16-bit value: clamp, then scale. -/
def toInt16 (x : ℚ) : Int := scaleTo16 (clampSample x)

/-- Serialize one signed 16-bit value as two little-endian bytes
(two's complement: reduce modulo 2^16, low byte first). -/
def int16ToLE (v : Int) : List Nat :=
  let u := (v % 65536).toNat
  [u % 256, u / 256]

/-- Modelled from the spec: `encode` converts a sequence of float samples
into the PCM16LE byte sequence, sample by sample, little-endian. -/
def encode (samples : List ℚ) : List Nat :=
  (samples.map toInt16).flatMap int16ToLE

/-- Modelled from the spec: `createBlob` packages one capture window's
samples as the outbound PCM16LE payload; its byte content is `encode`. -/
def createBlob (samples : List ℚ) : List Nat := encode samples

/-! ## Session manager data model

Embedded from `src/unnamed/part_001`, the design variant of
`GeminiLiveService` with the `isActive` liveness flag, the `reconnecting`
status, and full capture-pipeline cleanup in `stopAll`. -/

/-- Opaque remote session handle: it exposes `close()` and (when usable)
the `sendRealtimeInput` method; `sendRealtimeInput : Bool` records whether
that method is present, mirroring the truthiness test in the capture
pipeline. -/
structure SessionObj where
  closed : Bool
  sendRealtimeInput : Bool
deriving DecidableEq, Repr

/-- One browser audio device context (`AudioContext`). -/
structure AudioContextState where
  sampleRate : Nat
  suspended : Bool
  closed : Bool
deriving DecidableEq, Repr

/-- One microphone hardware track of the captured `MediaStream`. -/
structure MicTrack where
  stopped : Bool
deriving DecidableEq, Repr

/-- The captured microphone `MediaStream`: its list of hardware tracks. -/
structure MicStream where
  tracks : List MicTrack
deriving DecidableEq, Repr

/-- The capture pipeline's `ScriptProcessorNode`. -/
structure ScriptProcessorNode where
  connected : Bool
deriving DecidableEq, Repr

/-- One scheduled playback handle (`AudioBufferSourceNode`): its scheduled
start time, its buffer's duration, and whether it has been force-stopped. -/
structure SourceNode where
  startTime : ℚ
  duration : ℚ
  stopped : Bool
deriving DecidableEq, Repr

/-- One inbound stream frame (the `serverContent` of a
`LiveServerMessage`): optional transcription deltas for each role, the
turn-complete marker, an optional inline audio chunk (represented by its
decoded sample count at 24 kHz), and the interruption marker.  A `none`
delta models an absent (or empty, hence falsy) transcription object. -/
structure ServerMessage where
  inputTranscription : Option String
  outputTranscription : Option String
  turnComplete : Bool
  audioData : Option Nat
  interrupted : Bool
deriving DecidableEq, Repr

/-- One finalized conversation turn kept by the caller (`ChatTurn`). -/
structure ChatTurn where
  role : Role
  text : String
  timestamp : Nat
deriving DecidableEq, Repr

/-- The mutable instance fields of `GeminiLiveService`
(src/unnamed/part_001, lines 11-21), plus ghost history fields.  When the
TypeScript code nulls a field after releasing the underlying hardware
object, the embedding moves the released object's final state into the
corresponding ghost list (`releasedTracks`, `releasedProcessors`,
`releasedSessions`); force-stopped playback handles move to
`stoppedSources`.  The ghost fields keep the hardware observable after the
service drops its reference and are never read by the modelled code. -/
structure ServiceState where
  session : Option SessionObj
  audioContext : Option AudioContextState
  outAudioContext : Option AudioContextState
  nextStartTime : ℚ
  sources : List SourceNode
  currentInputTranscription : String
  currentOutputTranscription : String
  keepAliveInterval : Option Nat
  micStream : Option MicStream
  scriptProcessor : Option ScriptProcessorNode
  isActive : Bool
  stoppedSources : List SourceNode
  releasedTracks : List MicTrack
  releasedProcessors : List ScriptProcessorNode
  releasedSessions : List SessionObj
deriving DecidableEq, Repr

/-- The field initializers of a fresh `GeminiLiveService` instance. -/
def initState : ServiceState where
  session := none
  audioContext := none
  outAudioContext := none
  nextStartTime := 0
  sources := []
  currentInputTranscription := ""
  currentOutputTranscription := ""
  keepAliveInterval := none
  micStream := none
  scriptProcessor := none
  isActive := false
  stoppedSources := []
  releasedTracks := []
  releasedProcessors := []
  releasedSessions := []

/-- JavaScript `Math.max` on audio clock values. -/
def ratMax (a b : ℚ) : ℚ := if a ≤ b then b else a

/-! ## Inbound frame processing

`handleMessage` (src/unnamed/part_001, lines 135-169) is the body of the
`onmessage` callback.  It is split here into its four source-level blocks;
`handleMessage` chains them in source order.  The device playback clock
`outAudioContext.currentTime` at the moment of processing is passed in as
`now`. -/

/-- The `inputTranscription` block (lines 136-139): append the delta to the
user buffer and notify the caller with the partial cumulative text. -/
def applyInputDelta (s : ServiceState) (m : ServerMessage) :
    ServiceState × List Callback :=
  match m.inputTranscription with
  | some t =>
      ({ s with currentInputTranscription := s.currentInputTranscription ++ t },
       [Callback.transcriptionUpdate Role.user (s.currentInputTranscription ++ t) false])
  | none => (s, [])

/-- The `outputTranscription` block (lines 140-143): append the delta to
the model buffer and notify the caller with the partial cumulative text. -/
def applyOutputDelta (s : ServiceState) (m : ServerMessage) :
    ServiceState × List Callback :=
  match m.outputTranscription with
  | some t =>
      ({ s with currentOutputTranscription := s.currentOutputTranscription ++ t },
       [Callback.transcriptionUpdate Role.model (s.currentOutputTranscription ++ t) false])
  | none => (s, [])

/-- The `turnComplete` block (lines 144-149): notify both roles with their
accumulated text and `isComplete = true`, then clear both buffers. -/
def applyTurnComplete (s : ServiceState) (m : ServerMessage) :
    ServiceState × List Callback :=
  if m.turnComplete then
    ({ s with currentInputTranscription := "", currentOutputTranscription := "" },
     [Callback.transcriptionUpdate Role.user s.currentInputTranscription true,
      Callback.transcriptionUpdate Role.model s.currentOutputTranscription true])
  else (s, [])

/-- The audio block (lines 151-162): when an inline audio chunk is present,
the output context exists and the session is active, advance the cursor to
`max(nextStartTime, currentTime)`, schedule the decoded buffer there, add
the handle to the active set and advance the cursor by the buffer's
duration (sample count over the 24 kHz playback rate). -/
def applyAudio (s : ServiceState) (m : ServerMessage) (now : ℚ) : ServiceState :=
  match m.audioData, s.outAudioContext with
  | some n, some _ =>
      if s.isActive then
        let start := ratMax s.nextStartTime now
        let dur := mkRat n 24000
        { s with
          nextStartTime := start + dur,
          sources := s.sources ++ [{ startTime := start, duration := dur, stopped := false }] }
      else s
  | _, _ => s

/-- The `interrupted` block (lines 164-168): force-stop every active
playback handle, clear the active set and reset the cursor to zero. -/
def applyInterrupted (s : ServiceState) (m : ServerMessage) : ServiceState :=
  if m.interrupted then
    { s with
      stoppedSources := s.sources.map (fun (x : SourceNode) => { x with stopped := true }) ++ s.stoppedSources,
      sources := [],
      nextStartTime := 0 }
  else s

/-- `handleMessage` (src/unnamed/part_001, lines 135-169): the four blocks
in source order; only the transcription blocks invoke caller callbacks. -/
def handleMessage (s : ServiceState) (m : ServerMessage) (now : ℚ) :
    ServiceState × List Callback :=
  let r1 := applyInputDelta s m
  let r2 := applyOutputDelta r1.1 m
  let r3 := applyTurnComplete r2.1 m
  let s4 := applyAudio r3.1 m now
  let s5 := applyInterrupted s4 m
  (s5, r1.2 ++ r2.2 ++ r3.2)

/-! ## Teardown and stream lifecycle callbacks -/

/-- `stopAll` (src/unnamed/part_001, lines 171-196): flip the liveness
flag, cancel the keep-alive timer, force-stop and clear every playback
handle, disconnect and release the capture pipeline node, stop all
microphone hardware tracks and release the stream, close and release the
remote session, and close both audio device contexts.  Every individual
release in the source is wrapped so a failure is swallowed; the model is
total, so no release can prevent the rest. -/
def stopAll (s : ServiceState) : ServiceState :=
  let s1 := { s with isActive := false, keepAliveInterval := none }
  let s2 := { s1 with
    stoppedSources := s1.sources.map (fun (x : SourceNode) => { x with stopped := true }) ++ s1.stoppedSources,
    sources := ([] : List SourceNode) }
  let s3 :=
    match s2.scriptProcessor with
    | some p =>
        { s2 with
          releasedProcessors := { p with connected := false } :: s2.releasedProcessors,
          scriptProcessor := none }
    | none => s2
  let s4 :=
    match s3.micStream with
    | some ms =>
        { s3 with
          releasedTracks := ms.tracks.map (fun (t : MicTrack) => { t with stopped := true }) ++ s3.releasedTracks,
          micStream := none }
    | none => s3
  let s5 :=
    match s4.session with
    | some sess =>
        { s4 with
          releasedSessions := { sess with closed := true } :: s4.releasedSessions,
          session := none }
    | none => s4
  { s5 with
    audioContext := s5.audioContext.map (fun (c : AudioContextState) => { c with closed := true }),
    outAudioContext := s5.outAudioContext.map (fun (c : AudioContextState) => { c with closed := true }) }

/-- `startMicStreaming` (src/unnamed/part_001, lines 108-133): guard on the
capture context and mic stream, then create and connect the script
processor node of the capture pipeline. -/
def startMicStreaming (s : ServiceState) : ServiceState :=
  match s.audioContext, s.micStream with
  | some _, some _ => { s with scriptProcessor := some { connected := true } }
  | _, _ => s

/-- The `onopen` stream callback (lines 68-75): dropped when the liveness
flag is already false; otherwise report `open`, start the capture pipeline
and install the keep-alive timer (whose handle is `timerId`). -/
def onopen (s : ServiceState) (timerId : Nat) : ServiceState × List Callback :=
  if s.isActive then
    ({ startMicStreaming s with keepAliveInterval := some timerId },
     [Callback.statusChange Status.opened none])
  else (s, [])

/-- The `onerror` stream callback (lines 80-85): report `error` with a
fixed message only while the liveness flag is true. -/
def onerror (s : ServiceState) : ServiceState × List Callback :=
  if s.isActive then
    (s, [Callback.statusChange Status.error (some "Connection issue. Retrying...")])
  else (s, [])

/-- The `onclose` stream callback (lines 86-96): capture the liveness flag,
tear everything down immediately, then — only if the session was still
active — map the duration-limit whitelist codes 1006, 1011, 1001 to
`reconnecting` and every other code to `closed`.  A close arriving after
teardown produces no callback at all. -/
def onclose (s : ServiceState) (code : Nat) : ServiceState × List Callback :=
  let wasActive := s.isActive
  let s2 := stopAll s
  if wasActive && (code == 1006 || code == 1011 || code == 1001) then
    (s2, [Callback.statusChange Status.reconnecting none])
  else if wasActive then
    (s2, [Callback.statusChange Status.closed none])
  else
    (s2, [])

/-! ## Capture pipeline dispatch

The `onaudioprocess` handler (lines 114-129) runs in two phases: at
capture time it checks the liveness flag and the session field and encodes
the window; the `sessionPromise.then` continuation later re-checks the
liveness flag against the (possibly torn down) service state at send time
and either sends the encoded frame or silently drops it. -/

/-- Capture-time phase (lines 115-118): encode the window if the service
is active and holds a session; otherwise produce nothing. -/
def captureFrame (s : ServiceState) (inputData : List ℚ) : Option (List Nat) :=
  if s.isActive && s.session.isSome then some (createBlob inputData) else none

/-- Send-time phase (lines 120-128): the continuation receives the resolved
session; the frame is sent exactly when the service is still active and the
session value is usable.  The result is the frame put on the stream
(`some`) or a silent drop (`none`); no state is touched, so nothing is ever
queued. -/
def sendFrame (s : ServiceState) (session : Option SessionObj)
    (pcmBlob : List Nat) : Option (List Nat) :=
  match session with
  | some sess => if s.isActive && sess.sendRealtimeInput then some pcmBlob else none
  | none => none

/-! ## Event-level semantics -/

/-- One event delivered to the session manager: a stream lifecycle callback
(`onopen`/`onmessage`/`onerror`/`onclose`) or a caller-initiated `stopAll`.
`now` is the playback clock at the moment an inbound frame is processed. -/
inductive Ev where
  | openEv (timerId : Nat)
  | messageEv (m : ServerMessage) (now : ℚ)
  | errorEv
  | closeEv (code : Nat)
  | stopEv
deriving DecidableEq, Repr

/-- Dispatch one event.  The `onmessage` callback (lines 76-79) drops the
frame when the liveness flag is false, before `handleMessage` runs. -/
def step (s : ServiceState) (e : Ev) : ServiceState × List Callback :=
  match e with
  | Ev.openEv timerId => onopen s timerId
  | Ev.messageEv m now => if s.isActive then handleMessage s m now else (s, [])
  | Ev.errorEv => onerror s
  | Ev.closeEv code => onclose s code
  | Ev.stopEv => (stopAll s, [])

/-- Run a sequence of events, concatenating the emitted callbacks. -/
def run (s : ServiceState) (es : List Ev) : ServiceState × List Callback :=
  match es with
  | [] => (s, [])
  | e :: rest =>
      let r1 := step s e
      let r2 := run r1.1 rest
      (r2.1, r1.2 ++ r2.2)

/-- Run a sequence of inbound frames directly through `handleMessage`,
pairing each frame with the playback clock at its processing instant. -/
def runMessages (s : ServiceState) (ms : List (ServerMessage × ℚ)) :
    ServiceState × List Callback :=
  match ms with
  | [] => (s, [])
  | (m, now) :: rest =>
      let r1 := handleMessage s m now
      let r2 := runMessages r1.1 rest
      (r2.1, r1.2 ++ r2.2)

/-! ## Connect setup phase

`connect` (src/unnamed/part_001, lines 25-106).  The environment record
fixes the outcome of each capability-gated setup effect: whether the API
key is present in the process environment, whether the two audio device
contexts construct, whether microphone permission is granted, and whether
the stream handshake resolves; the `...ErrMsg` fields carry the thrown
errors' `message` strings. -/
structure ConnectEnv where
  apiKeyPresent : Bool
  ctxOk : Bool
  micGranted : Bool
  streamOk : Bool
  micTracks : List MicTrack
  ctxErrMsg : String
  micErrMsg : String
  streamErrMsg : String
deriving DecidableEq, Repr

/-- Outcome of one `connect` invocation: the service state after the call,
the callbacks fired during it in order, whether the call threw (the catch
clause rethrows), and whether the bidirectional stream was opened. -/
structure ConnectResult where
  state : ServiceState
  callbacks : List Callback
  threw : Bool
  streamOpened : Bool
deriving DecidableEq, Repr

/-- The catch clause of `connect` (lines 101-105): clear the liveness flag,
report `error` with the thrown error's message (or the fallback
`'Connect failed'` when that message is falsy/empty), and rethrow. -/
def connectCatch (s : ServiceState) (preOut : List Callback) (msg : String)
    (opened : Bool) : ConnectResult where
  state := { s with isActive := false }
  callbacks := preOut ++
    [Callback.statusChange Status.error (some (if msg = "" then "Connect failed" else msg))]
  threw := true
  streamOpened := opened

/-- `connect` (lines 25-106): set the liveness flag, report `connecting`
(or `reconnecting` when resuming with history), check the API key, open
the two audio device contexts (16 kHz capture, 24 kHz playback) and resume
them, request the microphone, then open the bidirectional stream and await
the session object.  A failure at any setup point falls to the catch
clause; the catch clause releases nothing.  When context construction
fails the first `new AudioContext` is taken to throw, so neither field is
assigned. -/
def connect (s : ServiceState) (history : List ChatTurn) (env : ConnectEnv) :
    ConnectResult :=
  let s0 := { s with isActive := true }
  let preOut := [Callback.statusChange
    (if history.length > 0 then Status.reconnecting else Status.connecting) none]
  if !env.apiKeyPresent then
    connectCatch s0 preOut "API Key missing" false
  else if !env.ctxOk then
    connectCatch s0 preOut env.ctxErrMsg false
  else
    let s1 := { s0 with
      audioContext := some { sampleRate := 16000, suspended := false, closed := false },
      outAudioContext := some { sampleRate := 24000, suspended := false, closed := false } }
    if !env.micGranted then
      connectCatch s1 preOut env.micErrMsg false
    else
      let s2 := { s1 with micStream := some { tracks := env.micTracks } }
      if !env.streamOk then
        connectCatch s2 preOut env.streamErrMsg false
      else
        { state := { s2 with session := some { closed := false, sendRealtimeInput := true } }
          callbacks := preOut
          threw := false
          streamOpened := true }

/-! ## Observation helpers over emitted callbacks -/

/-- The texts of the partial (`isComplete = false`) transcription callbacks
for the user role, in emission order. -/
def userPartialTexts (outs : List Callback) : List String :=
  outs.filterMap fun c =>
    match c with
    | Callback.transcriptionUpdate Role.user t false => some t
    | _ => none

/-- The texts of the partial (`isComplete = false`) transcription callbacks
for the model role, in emission order. -/
def modelPartialTexts (outs : List Callback) : List String :=
  outs.filterMap fun c =>
    match c with
    | Callback.transcriptionUpdate Role.model t false => some t
    | _ => none

/-- The role/text pairs of the finalizing (`isComplete = true`)
transcription callbacks, in emission order. -/
def completedUpdates (outs : List Callback) : List (Role × String) :=
  outs.filterMap fun c =>
    match c with
    | Callback.transcriptionUpdate r t true => some (r, t)
    | _ => none

/-- The user-role transcription deltas carried by a frame sequence, in
arrival order. -/
def userDeltas (ms : List (ServerMessage × ℚ)) : List String :=
  ms.filterMap fun p => p.1.inputTranscription

/-- The model-role transcription deltas carried by a frame sequence, in
arrival order. -/
def modelDeltas (ms : List (ServerMessage × ℚ)) : List String :=
  ms.filterMap fun p => p.1.outputTranscription

/-- Concatenation of a list of text deltas, in order. -/
def concatAll : List String → String
  | [] => ""
  | d :: rest => d ++ concatAll rest

/-- The running cumulative concatenations of a delta list on top of an
already-accumulated text `acc`: element `k` is `acc` followed by the first
`k+1` deltas. -/
def cumConcats (acc : String) : List String → List String
  | [] => []
  | d :: rest => (acc ++ d) :: cumConcats (acc ++ d) rest

/-! ## Helper lemmas -/

/-- Normal form of `stopAll`: every conditional release written out as a
single record update. -/
theorem stopAll_eq (s : ServiceState) :
    stopAll s = { s with
      isActive := false
      keepAliveInterval := none
      sources := []
      stoppedSources :=
        s.sources.map (fun (x : SourceNode) => { x with stopped := true }) ++ s.stoppedSources
      scriptProcessor := none
      micStream := none
      session := none
      releasedProcessors :=
        (match s.scriptProcessor with
          | some p => [{ p with connected := false }]
          | none => []) ++ s.releasedProcessors
      releasedTracks :=
        (match s.micStream with
          | some ms => ms.tracks.map (fun (t : MicTrack) => { t with stopped := true })
          | none => []) ++ s.releasedTracks
      releasedSessions :=
        (match s.session with
          | some sess => [{ sess with closed := true }]
          | none => []) ++ s.releasedSessions
      audioContext := s.audioContext.map (fun (c : AudioContextState) => { c with closed := true })
      outAudioContext :=
        s.outAudioContext.map (fun (c : AudioContextState) => { c with closed := true }) } := by
  rcases s with ⟨sess, actx, octx, nst, srcs, cit, cot, kai, mstr, sproc, act, ss, rt, rp, rs⟩
  cases sess <;> cases mstr <;> cases sproc <;> simp [stopAll]

/-- An inactive service emits nothing and stays inactive on any one event. -/
theorem step_inactive (s : ServiceState) (e : Ev) (hinact : s.isActive = false) :
    (step s e).1.isActive = false ∧ (step s e).2 = [] := by
  cases e <;> simp [step, onopen, onerror, onclose, hinact, stopAll_eq]

/-- No event turns the liveness flag back on. -/
theorem step_no_revive (s : ServiceState) (e : Ev)
    (h : (step s e).1.isActive = true) : s.isActive = true := by
  by_contra hfalse
  have h0 : s.isActive = false := by
    cases hact : s.isActive
    · rfl
    · exact absurd hact hfalse
  have := (step_inactive s e h0).1
  rw [this] at h
  exact Bool.false_ne_true h

/-- An inactive service stays inactive and emits nothing over any event
sequence. -/
theorem run_inactive (s : ServiceState) (es : List Ev) (hinact : s.isActive = false) :
    (run s es).1.isActive = false ∧ (run s es).2 = [] := by
  induction es generalizing s with
  | nil => simpa [run]
  | cons e rest ih =>
    have h1 := step_inactive s e hinact
    have h2 := ih (step s e).1 h1.1
    simp [run, h1.2, h2.1, h2.2]

section PhaseFacts

variable (s : ServiceState) (m : ServerMessage) (now : ℚ)

@[simp] theorem inDelta_currentOutput :
    (applyInputDelta s m).1.currentOutputTranscription = s.currentOutputTranscription := by
  cases h : m.inputTranscription <;> simp [applyInputDelta, h]

@[simp] theorem inDelta_isActive :
    (applyInputDelta s m).1.isActive = s.isActive := by
  cases h : m.inputTranscription <;> simp [applyInputDelta, h]

@[simp] theorem inDelta_nextStartTime :
    (applyInputDelta s m).1.nextStartTime = s.nextStartTime := by
  cases h : m.inputTranscription <;> simp [applyInputDelta, h]

@[simp] theorem inDelta_sources :
    (applyInputDelta s m).1.sources = s.sources := by
  cases h : m.inputTranscription <;> simp [applyInputDelta, h]

@[simp] theorem inDelta_stoppedSources :
    (applyInputDelta s m).1.stoppedSources = s.stoppedSources := by
  cases h : m.inputTranscription <;> simp [applyInputDelta, h]

@[simp] theorem inDelta_outCtx :
    (applyInputDelta s m).1.outAudioContext = s.outAudioContext := by
  cases h : m.inputTranscription <;> simp [applyInputDelta, h]

@[simp] theorem outDelta_currentInput :
    (applyOutputDelta s m).1.currentInputTranscription = s.currentInputTranscription := by
  cases h : m.outputTranscription <;> simp [applyOutputDelta, h]

@[simp] theorem outDelta_isActive :
    (applyOutputDelta s m).1.isActive = s.isActive := by
  cases h : m.outputTranscription <;> simp [applyOutputDelta, h]

@[simp] theorem outDelta_nextStartTime :
    (applyOutputDelta s m).1.nextStartTime = s.nextStartTime := by
  cases h : m.outputTranscription <;> simp [applyOutputDelta, h]

@[simp] theorem outDelta_sources :
    (applyOutputDelta s m).1.sources = s.sources := by
  cases h : m.outputTranscription <;> simp [applyOutputDelta, h]

@[simp] theorem outDelta_stoppedSources :
    (applyOutputDelta s m).1.stoppedSources = s.stoppedSources := by
  cases h : m.outputTranscription <;> simp [applyOutputDelta, h]

@[simp] theorem outDelta_outCtx :
    (applyOutputDelta s m).1.outAudioContext = s.outAudioContext := by
  cases h : m.outputTranscription <;> simp [applyOutputDelta, h]

@[simp] theorem turnC_isActive :
    (applyTurnComplete s m).1.isActive = s.isActive := by
  by_cases h : m.turnComplete <;> simp [applyTurnComplete, h]

@[simp] theorem turnC_nextStartTime :
    (applyTurnComplete s m).1.nextStartTime = s.nextStartTime := by
  by_cases h : m.turnComplete <;> simp [applyTurnComplete, h]

@[simp] theorem turnC_sources :
    (applyTurnComplete s m).1.sources = s.sources := by
  by_cases h : m.turnComplete <;> simp [applyTurnComplete, h]

@[simp] theorem turnC_stoppedSources :
    (applyTurnComplete s m).1.stoppedSources = s.stoppedSources := by
  by_cases h : m.turnComplete <;> simp [applyTurnComplete, h]

@[simp] theorem turnC_outCtx :
    (applyTurnComplete s m).1.outAudioContext = s.outAudioContext := by
  by_cases h : m.turnComplete <;> simp [applyTurnComplete, h]

@[simp] theorem audio_currentInput :
    (applyAudio s m now).currentInputTranscription = s.currentInputTranscription := by
  unfold applyAudio
  split
  · split <;> rfl
  · rfl

@[simp] theorem audio_currentOutput :
    (applyAudio s m now).currentOutputTranscription = s.currentOutputTranscription := by
  unfold applyAudio
  split
  · split <;> rfl
  · rfl

@[simp] theorem interrupted_currentInput :
    (applyInterrupted s m).currentInputTranscription = s.currentInputTranscription := by
  unfold applyInterrupted
  split <;> rfl

@[simp] theorem interrupted_currentOutput :
    (applyInterrupted s m).currentOutputTranscription = s.currentOutputTranscription := by
  unfold applyInterrupted
  split <;> rfl

end PhaseFacts

/-- `userPartialTexts` distributes over callback concatenation. -/
theorem userPartialTexts_append (a b : List Callback) :
    userPartialTexts (a ++ b) = userPartialTexts a ++ userPartialTexts b := by
  simp [userPartialTexts]

/-- `modelPartialTexts` distributes over callback concatenation. -/
theorem modelPartialTexts_append (a b : List Callback) :
    modelPartialTexts (a ++ b) = modelPartialTexts a ++ modelPartialTexts b := by
  simp [modelPartialTexts]

/-- On a frame without a turn-complete marker, the user-role partial
callbacks and the user buffer evolve by exactly the frame's user delta. -/
theorem handleMessage_noTurn_user (s : ServiceState) (m : ServerMessage) (now : ℚ)
    (h : m.turnComplete = false) :
    userPartialTexts (handleMessage s m now).2 =
      (match m.inputTranscription with
        | some t => [s.currentInputTranscription ++ t]
        | none => []) ∧
    (handleMessage s m now).1.currentInputTranscription =
      (match m.inputTranscription with
        | some t => s.currentInputTranscription ++ t
        | none => s.currentInputTranscription) := by
  cases hi : m.inputTranscription <;> cases ho : m.outputTranscription <;>
    simp [handleMessage, applyInputDelta, applyOutputDelta, applyTurnComplete, h, hi, ho,
      userPartialTexts]

/-- On a frame without a turn-complete marker, the model-role partial
callbacks and the model buffer evolve by exactly the frame's model delta. -/
theorem handleMessage_noTurn_model (s : ServiceState) (m : ServerMessage) (now : ℚ)
    (h : m.turnComplete = false) :
    modelPartialTexts (handleMessage s m now).2 =
      (match m.outputTranscription with
        | some t => [s.currentOutputTranscription ++ t]
        | none => []) ∧
    (handleMessage s m now).1.currentOutputTranscription =
      (match m.outputTranscription with
        | some t => s.currentOutputTranscription ++ t
        | none => s.currentOutputTranscription) := by
  cases hi : m.inputTranscription <;> cases ho : m.outputTranscription <;>
    simp [handleMessage, applyInputDelta, applyOutputDelta, applyTurnComplete, h, hi, ho,
      modelPartialTexts]

/-- Over a turn-free frame sequence, the user-role partial texts are the
running concatenations of the user deltas on top of the starting buffer,
and the final buffer is the starting buffer followed by all deltas. -/
theorem runMessages_partials_user (ms : List (ServerMessage × ℚ)) (s : ServiceState)
    (h : ∀ p ∈ ms, (p : ServerMessage × ℚ).1.turnComplete = false) :
    userPartialTexts (runMessages s ms).2 =
      cumConcats s.currentInputTranscription (userDeltas ms) ∧
    (runMessages s ms).1.currentInputTranscription =
      s.currentInputTranscription ++ concatAll (userDeltas ms) := by
  induction ms generalizing s with
  | nil => simp [runMessages, userDeltas, cumConcats, concatAll, userPartialTexts,
      String.append_empty]
  | cons p rest ih =>
    obtain ⟨m, now⟩ := p
    have hm : m.turnComplete = false := h (m, now) (List.mem_cons_self _ _)
    have hrest : ∀ q ∈ rest, (q : ServerMessage × ℚ).1.turnComplete = false :=
      fun q hq => h q (List.mem_cons_of_mem _ hq)
    have hstep := handleMessage_noTurn_user s m now hm
    have hih := ih (handleMessage s m now).1 hrest
    constructor
    · show userPartialTexts
        ((handleMessage s m now).2 ++ (runMessages (handleMessage s m now).1 rest).2) = _
      rw [userPartialTexts_append, hstep.1, hih.1, hstep.2]
      cases hi : m.inputTranscription <;> simp [userDeltas, hi, cumConcats]
    · show (runMessages (handleMessage s m now).1 rest).1.currentInputTranscription = _
      rw [hih.2, hstep.2]
      cases hi : m.inputTranscription <;>
        simp [userDeltas, hi, concatAll, String.append_assoc]

/-- Over a turn-free frame sequence, the model-role partial texts are the
running concatenations of the model deltas on top of the starting buffer,
and the final buffer is the starting buffer followed by all deltas. -/
theorem runMessages_partials_model (ms : List (ServerMessage × ℚ)) (s : ServiceState)
    (h : ∀ p ∈ ms, (p : ServerMessage × ℚ).1.turnComplete = false) :
    modelPartialTexts (runMessages s ms).2 =
      cumConcats s.currentOutputTranscription (modelDeltas ms) ∧
    (runMessages s ms).1.currentOutputTranscription =
      s.currentOutputTranscription ++ concatAll (modelDeltas ms) := by
  induction ms generalizing s with
  | nil => simp [runMessages, modelDeltas, cumConcats, concatAll, modelPartialTexts,
      String.append_empty]
  | cons p rest ih =>
    obtain ⟨m, now⟩ := p
    have hm : m.turnComplete = false := h (m, now) (List.mem_cons_self _ _)
    have hrest : ∀ q ∈ rest, (q : ServerMessage × ℚ).1.turnComplete = false :=
      fun q hq => h q (List.mem_cons_of_mem _ hq)
    have hstep := handleMessage_noTurn_model s m now hm
    have hih := ih (handleMessage s m now).1 hrest
    constructor
    · show modelPartialTexts
        ((handleMessage s m now).2 ++ (runMessages (handleMessage s m now).1 rest).2) = _
      rw [modelPartialTexts_append, hstep.1, hih.1, hstep.2]
      cases ho : m.outputTranscription <;> simp [modelDeltas, ho, cumConcats]
    · show (runMessages (handleMessage s m now).1 rest).1.currentOutputTranscription = _
      rw [hih.2, hstep.2]
      cases ho : m.outputTranscription <;>
        simp [modelDeltas, ho, concatAll, String.append_assoc]

/-- The running concatenations are the prefix joins: element `k` is `acc`
followed by the join of the first `k+1` deltas. -/
theorem cumConcats_eq (acc : String) (ds : List String) :
    cumConcats acc ds =
      (List.range ds.length).map (fun k => acc ++ concatAll (ds.take (k + 1))) := by
  induction ds generalizing acc with
  | nil => simp [cumConcats]
  | cons d rest ih =>
    rw [cumConcats, ih (acc ++ d), List.length_cons, List.range_succ_eq_map]
    simp [concatAll, String.append_assoc, String.append_empty]

/-- A frame without the interruption marker leaves `applyInterrupted` as
the identity. -/
theorem applyInterrupted_of_not (s : ServiceState) (m : ServerMessage)
    (h : m.interrupted = false) : applyInterrupted s m = s := by
  simp [applyInterrupted, h]

/-- `Math.max` dominates its first argument. -/
theorem le_ratMax_left (a b : ℚ) : a ≤ ratMax a b := by
  unfold ratMax
  split
  · assumption
  · exact le_refl a

/-- A decoded buffer's duration (samples over the 24 kHz rate) is
nonnegative. -/
theorem chunk_duration_nonneg (n : Nat) : (0 : ℚ) ≤ mkRat (n : Int) 24000 := by
  rw [Rat.mkRat_eq_div]
  positivity

/-- The audio block never moves the scheduling cursor backward. -/
theorem applyAudio_cursor_mono (s : ServiceState) (m : ServerMessage) (now : ℚ) :
    s.nextStartTime ≤ (applyAudio s m now).nextStartTime := by
  unfold applyAudio
  split
  · split
    · exact le_trans (le_ratMax_left _ _) (le_add_of_nonneg_right (chunk_duration_nonneg _))
    · exact le_refl _
  · exact le_refl _

/-- The audio block only ever appends to the active playback set. -/
theorem applyAudio_sources_extends (s : ServiceState) (m : ServerMessage) (now : ℚ) :
    ∃ tail, (applyAudio s m now).sources = s.sources ++ tail := by
  unfold applyAudio
  split
  · split
    · exact ⟨_, rfl⟩
    · exact ⟨[], (List.append_nil _).symm⟩
  · exact ⟨[], (List.append_nil _).symm⟩

/-- One non-interrupted frame never moves the scheduling cursor backward. -/
theorem handleMessage_cursor_mono (s : ServiceState) (m : ServerMessage) (now : ℚ)
    (hni : m.interrupted = false) :
    s.nextStartTime ≤ (handleMessage s m now).1.nextStartTime := by
  have key := applyAudio_cursor_mono
    (applyTurnComplete (applyOutputDelta (applyInputDelta s m).1 m).1 m).1 m now
  simp only [handleMessage, applyInterrupted_of_not _ _ hni]
  simpa using key

/-- A sequence of non-interrupted frames never moves the scheduling cursor
backward. -/
theorem runMessages_cursor_mono (ms : List (ServerMessage × ℚ)) (s : ServiceState)
    (hseq : ∀ p ∈ ms, (p : ServerMessage × ℚ).1.interrupted = false) :
    s.nextStartTime ≤ (runMessages s ms).1.nextStartTime := by
  induction ms generalizing s with
  | nil => simp [runMessages]
  | cons p rest ih =>
    obtain ⟨m, now⟩ := p
    have h1 := handleMessage_cursor_mono s m now (hseq (m, now) (List.mem_cons_self _ _))
    have h2 := ih (handleMessage s m now).1 (fun q hq => hseq q (List.mem_cons_of_mem _ hq))
    exact le_trans h1 h2

/-- On an active session with an output context, a non-interrupted audio
frame schedules exactly one new handle at `max(cursor, now)` and advances
the cursor by the chunk's duration. -/
theorem handleMessage_audio_schedule (s : ServiceState) (m : ServerMessage) (now : ℚ)
    (n : Nat) (ctx : AudioContextState)
    (ha : m.audioData = some n) (hctx : s.outAudioContext = some ctx)
    (hact : s.isActive = true) (hni : m.interrupted = false) :
    (handleMessage s m now).1.sources =
      s.sources ++ [{ startTime := ratMax s.nextStartTime now,
                      duration := mkRat (n : Int) 24000, stopped := false }] ∧
    (handleMessage s m now).1.nextStartTime =
      ratMax s.nextStartTime now + mkRat (n : Int) 24000 := by
  constructor <;>
    simp [handleMessage, applyInterrupted_of_not _ _ hni, applyAudio, ha, hctx, hact]

/-- An interruption frame stops every previously active handle, clears the
active set and resets the cursor to zero. -/
theorem handleMessage_interrupt_resets (s : ServiceState) (m : ServerMessage) (now : ℚ)
    (hint : m.interrupted = true) :
    (handleMessage s m now).1.sources = [] ∧
    (handleMessage s m now).1.nextStartTime = 0 ∧
    ∀ x ∈ s.sources,
      ({ x with stopped := true } : SourceNode) ∈ (handleMessage s m now).1.stoppedSources := by
  refine ⟨by simp [handleMessage, applyInterrupted, hint],
          by simp [handleMessage, applyInterrupted, hint], ?_⟩
  intro x hx
  obtain ⟨tail, htail⟩ := applyAudio_sources_extends
    (applyTurnComplete (applyOutputDelta (applyInputDelta s m).1 m).1 m).1 m now
  simp only [handleMessage, applyInterrupted, hint, if_true]
  rw [htail]
  simp only [List.mem_append, List.mem_map]
  left
  exact ⟨x, by simp [hx], rfl⟩

/-- Clamping really lands in [-1, 1]. -/
theorem clampSample_bounds (x : ℚ) : -1 ≤ clampSample x ∧ clampSample x ≤ 1 := by
  by_cases h1 : x < -1
  · simp [clampSample, h1]
  · by_cases h2 : 1 < x
    · simp [clampSample, h1, h2]
    · simp [clampSample, h1, h2]
      exact ⟨le_of_not_lt h1, le_of_not_lt h2⟩

/-- A rational at most one has numerator at most denominator. -/
theorem num_le_den_of_le_one (c : ℚ) (h : c ≤ 1) : c.num ≤ (c.den : Int) := by
  have h2 := Rat.le_def.mp h
  simpa using h2

/-- A rational at least minus one has numerator at least minus the
denominator. -/
theorem neg_den_le_num_of_neg_one_le (c : ℚ) (h : -1 ≤ c) : -(c.den : Int) ≤ c.num := by
  have hnum : ((-1 : ℚ)).num = -1 := by norm_num
  have hden : ((-1 : ℚ)).den = 1 := by norm_num
  have h2 := Rat.le_def.mp h
  rw [hnum, hden] at h2
  simpa using h2

/-- Truncated scaling of a fraction bounded by one stays within the scale
factor. -/
theorem tdiv_scale_le (nm d k : Int) (hd : 0 < d) (hnm : 0 ≤ nm) (hle : nm ≤ d)
    (hk : 0 ≤ k) : (nm * k).tdiv d ≤ k := by
  rw [Int.tdiv_eq_ediv (by positivity) (le_of_lt hd)]
  calc (nm * k) / d ≤ (d * k) / d :=
        Int.ediv_le_ediv hd (mul_le_mul_of_nonneg_right hle hk)
    _ = k := Int.mul_ediv_cancel_left k (ne_of_gt hd)

/-- Scaling a clamped sample lands in the signed 16-bit range. -/
theorem scaleTo16_bounds (c : ℚ) (h1 : -1 ≤ c) (h2 : c ≤ 1) :
    -32768 ≤ scaleTo16 c ∧ scaleTo16 c ≤ 32767 := by
  have hd : (0 : Int) < (c.den : Int) := by exact_mod_cast c.den_pos
  have hn_le : c.num ≤ (c.den : Int) := num_le_den_of_le_one c h2
  have hn_ge : -(c.den : Int) ≤ c.num := neg_den_le_num_of_neg_one_le c h1
  unfold scaleTo16
  by_cases hneg : c < 0
  · rw [if_pos hneg]
    have hnum : c.num < 0 := Rat.num_neg.mpr hneg
    have hrw : c.num * 32768 = -((-c.num) * 32768) := by ring
    rw [hrw, Int.neg_tdiv]
    have hw0 : 0 ≤ ((-c.num) * 32768).tdiv (c.den : Int) :=
      Int.tdiv_nonneg (by nlinarith) (le_of_lt hd)
    have hwle : ((-c.num) * 32768).tdiv (c.den : Int) ≤ 32768 :=
      tdiv_scale_le (-c.num) _ 32768 hd (by omega) (by omega) (by norm_num)
    omega
  · rw [if_neg hneg]
    have hnum : 0 ≤ c.num := Rat.num_nonneg.mpr (le_of_not_lt hneg)
    have hv0 : 0 ≤ (c.num * 32767).tdiv (c.den : Int) :=
      Int.tdiv_nonneg (mul_nonneg hnum (by norm_num)) (le_of_lt hd)
    have hvle : (c.num * 32767).tdiv (c.den : Int) ≤ 32767 :=
      tdiv_scale_le c.num _ 32767 hd hnum hn_le (by norm_num)
    omega

/-- The encoded blob spends exactly two bytes per sample. -/
theorem encode_length (samples : List ℚ) : (encode samples).length = 2 * samples.length := by
  induction samples with
  | nil => rfl
  | cons x xs ih =>
    simp [encode, int16ToLE] at ih ⊢
    omega

/-! ## Claim theorems -/

/-- C1: for every incoming stream close event whose code is in the
duration-limit whitelist (1006, 1011 or 1001 — in particular 1006) arriving
while the session is still marked active, the manager fires exactly one
`onStatusChange` callback and its status is `reconnecting`; in particular
neither `error` nor `closed` is reported. -/
theorem onclose_whitelisted_code_reports_reconnecting
    (s : ServiceState) (code : Nat)
    (hact : s.isActive = true)
    (hcode : code = 1006 ∨ code = 1011 ∨ code = 1001) :
    (onclose s code).2 = [Callback.statusChange Status.reconnecting none] ∧
    (∀ msg, Callback.statusChange Status.error msg ∉ (onclose s code).2) ∧
    (∀ msg, Callback.statusChange Status.closed msg ∉ (onclose s code).2) := by
  rcases hcode with h | h | h <;> subst h <;>
    simp [onclose, hact]

/-- Witness for C1: a live session receiving close code 1006. -/
theorem onclose_whitelisted_code_reports_reconnecting_witness :
    (onclose { initState with isActive := true } 1006).2 =
      [Callback.statusChange Status.reconnecting none] ∧
    (∀ msg, Callback.statusChange Status.error msg ∉
      (onclose { initState with isActive := true } 1006).2) ∧
    (∀ msg, Callback.statusChange Status.closed msg ∉
      (onclose { initState with isActive := true } 1006).2) :=
  onclose_whitelisted_code_reports_reconnecting
    { initState with isActive := true } 1006 rfl (Or.inl rfl)

/-- C2: `stopAll` raises no error (it is a total function), and from every
session state — including states where `connect` has not resolved — a
second immediate call changes nothing, and the state after `stopAll` has no
active playback handles, a false liveness flag, no keep-alive timer, only
closed audio device contexts, a released and disconnected capture pipeline
node, and every microphone hardware track released by the call stopped. -/
theorem stopAll_idempotent_and_tears_down (s : ServiceState) :
    stopAll (stopAll s) = stopAll s ∧
    (stopAll s).sources = [] ∧
    (stopAll s).isActive = false ∧
    (stopAll s).keepAliveInterval = none ∧
    (∀ c, (stopAll s).audioContext = some c → c.closed = true) ∧
    (∀ c, (stopAll s).outAudioContext = some c → c.closed = true) ∧
    (stopAll s).scriptProcessor = none ∧
    (∀ p, p ∈ (stopAll s).releasedProcessors →
      p ∈ s.releasedProcessors ∨ p.connected = false) ∧
    (stopAll s).micStream = none ∧
    (∀ t, t ∈ (stopAll s).releasedTracks →
      t ∈ s.releasedTracks ∨ t.stopped = true) := by
  rcases s with ⟨sess, actx, octx, nst, srcs, cit, cot, kai, mstr, sproc, act, ss, rt, rp, rs⟩
  cases sess <;> cases actx <;> cases octx <;> cases mstr <;> cases sproc <;>
    simp [stopAll] <;> aesop

/-- C3: the liveness flag transitions from true to false exactly once per
session lifetime: no event ever turns it back on (so a true→false
transition cannot repeat), and once it is false no callback — neither
`onTranscriptionUpdate` nor `onStatusChange` — is ever again invoked on the
caller over any further event sequence: late frames, errors and close
events are silently dropped and the flag stays false. -/
theorem liveness_flag_one_way_and_silences_callbacks
    (s : ServiceState) (es : List Ev)
    (hinact : s.isActive = false) :
    (run s es).1.isActive = false ∧
    (run s es).2 = [] ∧
    (∀ s2 e, (step s2 e).1.isActive = true → s2.isActive = true) :=
  ⟨(run_inactive s es hinact).1, (run_inactive s es hinact).2,
    fun s2 e h => step_no_revive s2 e h⟩

/-- Witness for C3: a torn-down service receiving a close event, a frame
carrying a delta, audio and an interruption, a stream error and a late
open. -/
theorem liveness_flag_one_way_and_silences_callbacks_witness :
    (run initState
      [Ev.closeEv 1006,
       Ev.messageEv
         { inputTranscription := some "late", outputTranscription := none,
           turnComplete := true, audioData := some 240, interrupted := true } 0,
       Ev.errorEv, Ev.openEv 7]).1.isActive = false ∧
    (run initState
      [Ev.closeEv 1006,
       Ev.messageEv
         { inputTranscription := some "late", outputTranscription := none,
           turnComplete := true, audioData := some 240, interrupted := true } 0,
       Ev.errorEv, Ev.openEv 7]).2 = [] ∧
    (∀ s2 e, (step s2 e).1.isActive = true → s2.isActive = true) :=
  liveness_flag_one_way_and_silences_callbacks initState
    [Ev.closeEv 1006,
     Ev.messageEv
       { inputTranscription := some "late", outputTranscription := none,
         turnComplete := true, audioData := some 240, interrupted := true } 0,
     Ev.errorEv, Ev.openEv 7] rfl

/-- C4: once the session object has resolved and exposes
`sendRealtimeInput`, the send-time continuation puts the window's encoded
frame on the stream exactly when the service is still active; if the
service has become inactive in the meantime (for example because `stopAll`
ran) the frame is silently dropped — the continuation returns nothing and
touches no state, so the frame is neither queued nor sent to the torn-down
session. -/
theorem sendFrame_sends_iff_still_active
    (s : ServiceState) (sess : SessionObj) (inputData : List ℚ)
    (husable : sess.sendRealtimeInput = true) :
    (s.isActive = true →
      sendFrame s (some sess) (createBlob inputData) = some (createBlob inputData)) ∧
    (s.isActive = false →
      sendFrame s (some sess) (createBlob inputData) = none) := by
  constructor <;> intro h <;> simp [sendFrame, h, husable]

/-- C6: within one turn (no turn-complete marker in the sequence) and
starting from empty accumulation buffers, every `isComplete = false`
transcription callback for a role carries exactly the concatenation of
that role's deltas received so far, in arrival order: the emitted partial
texts for the role are precisely the prefix-concatenations of the role's
delta sequence. -/
theorem partial_callbacks_carry_prefix_concats
    (s : ServiceState) (ms : List (ServerMessage × ℚ))
    (hnoTurn : ∀ p ∈ ms, (p : ServerMessage × ℚ).1.turnComplete = false)
    (hu : s.currentInputTranscription = "")
    (hm : s.currentOutputTranscription = "") :
    userPartialTexts (runMessages s ms).2 =
      (List.range (userDeltas ms).length).map
        (fun k => concatAll ((userDeltas ms).take (k + 1))) ∧
    modelPartialTexts (runMessages s ms).2 =
      (List.range (modelDeltas ms).length).map
        (fun k => concatAll ((modelDeltas ms).take (k + 1))) := by
  constructor
  · rw [(runMessages_partials_user ms s hnoTurn).1, hu, cumConcats_eq]
    simp [String.empty_append]
  · rw [(runMessages_partials_model ms s hnoTurn).1, hm, cumConcats_eq]
    simp [String.empty_append]

/-- Witness for C6: three model deltas "Hi", " there", "!" and one
interleaved user delta, no turn-complete marker. -/
theorem partial_callbacks_carry_prefix_concats_witness :
    userPartialTexts (runMessages initState
      [({ inputTranscription := none, outputTranscription := some "Hi",
          turnComplete := false, audioData := none, interrupted := false }, 0),
       ({ inputTranscription := some "Yes", outputTranscription := some " there",
          turnComplete := false, audioData := none, interrupted := false }, 0),
       ({ inputTranscription := none, outputTranscription := some "!",
          turnComplete := false, audioData := none, interrupted := false }, 0)]).2 =
      (List.range (userDeltas
        [({ inputTranscription := none, outputTranscription := some "Hi",
            turnComplete := false, audioData := none, interrupted := false }, 0),
         ({ inputTranscription := some "Yes", outputTranscription := some " there",
            turnComplete := false, audioData := none, interrupted := false }, 0),
         ({ inputTranscription := none, outputTranscription := some "!",
            turnComplete := false, audioData := none, interrupted := false }, 0)]).length).map
        (fun k => concatAll ((userDeltas
          [({ inputTranscription := none, outputTranscription := some "Hi",
              turnComplete := false, audioData := none, interrupted := false }, 0),
           ({ inputTranscription := some "Yes", outputTranscription := some " there",
              turnComplete := false, audioData := none, interrupted := false }, 0),
           ({ inputTranscription := none, outputTranscription := some "!",
              turnComplete := false, audioData := none, interrupted := false }, 0)]).take (k + 1))) ∧
    modelPartialTexts (runMessages initState
      [({ inputTranscription := none, outputTranscription := some "Hi",
          turnComplete := false, audioData := none, interrupted := false }, 0),
       ({ inputTranscription := some "Yes", outputTranscription := some " there",
          turnComplete := false, audioData := none, interrupted := false }, 0),
       ({ inputTranscription := none, outputTranscription := some "!",
          turnComplete := false, audioData := none, interrupted := false }, 0)]).2 =
      (List.range (modelDeltas
        [({ inputTranscription := none, outputTranscription := some "Hi",
            turnComplete := false, audioData := none, interrupted := false }, 0),
         ({ inputTranscription := some "Yes", outputTranscription := some " there",
            turnComplete := false, audioData := none, interrupted := false }, 0),
         ({ inputTranscription := none, outputTranscription := some "!",
            turnComplete := false, audioData := none, interrupted := false }, 0)]).length).map
        (fun k => concatAll ((modelDeltas
          [({ inputTranscription := none, outputTranscription := some "Hi",
              turnComplete := false, audioData := none, interrupted := false }, 0),
           ({ inputTranscription := some "Yes", outputTranscription := some " there",
              turnComplete := false, audioData := none, interrupted := false }, 0),
           ({ inputTranscription := none, outputTranscription := some "!",
              turnComplete := false, audioData := none, interrupted := false }, 0)]).take (k + 1))) :=
  partial_callbacks_carry_prefix_concats initState
    [({ inputTranscription := none, outputTranscription := some "Hi",
        turnComplete := false, audioData := none, interrupted := false }, 0),
     ({ inputTranscription := some "Yes", outputTranscription := some " there",
        turnComplete := false, audioData := none, interrupted := false }, 0),
     ({ inputTranscription := none, outputTranscription := some "!",
        turnComplete := false, audioData := none, interrupted := false }, 0)]
    (by decide) rfl rfl

/-- C7: every turn-complete frame makes the manager invoke
`onTranscriptionUpdate` with `isComplete = true` exactly once for each
role, user and model, carrying that role's accumulated text (the buffer at
frame start plus any delta in the same frame — possibly empty), and it
then resets both accumulation buffers to the empty string. -/
theorem turn_complete_finalizes_both_roles_and_resets
    (s : ServiceState) (m : ServerMessage) (now : ℚ)
    (h : m.turnComplete = true) :
    completedUpdates (handleMessage s m now).2 =
      [(Role.user, s.currentInputTranscription ++ (m.inputTranscription.getD "")),
       (Role.model, s.currentOutputTranscription ++ (m.outputTranscription.getD ""))] ∧
    (handleMessage s m now).1.currentInputTranscription = "" ∧
    (handleMessage s m now).1.currentOutputTranscription = "" := by
  cases hi : m.inputTranscription <;> cases ho : m.outputTranscription <;>
    simp [handleMessage, applyInputDelta, applyOutputDelta, applyTurnComplete, h, hi, ho,
      completedUpdates, String.append_empty]

/-- Witness for C7: a turn-complete frame carrying a model delta arrives
while both buffers hold accumulated text. -/
theorem turn_complete_finalizes_both_roles_and_resets_witness :
    completedUpdates (handleMessage
      { initState with
          currentInputTranscription := "Hi", currentOutputTranscription := "Hello" }
      { inputTranscription := none, outputTranscription := some "!",
        turnComplete := true, audioData := none, interrupted := false } 0).2 =
      [(Role.user, "Hi" ++ ((none : Option String).getD "")),
       (Role.model, "Hello" ++ ((some "!" : Option String).getD ""))] ∧
    (handleMessage
      { initState with
          currentInputTranscription := "Hi", currentOutputTranscription := "Hello" }
      { inputTranscription := none, outputTranscription := some "!",
        turnComplete := true, audioData := none, interrupted := false } 0).1.currentInputTranscription = "" ∧
    (handleMessage
      { initState with
          currentInputTranscription := "Hi", currentOutputTranscription := "Hello" }
      { inputTranscription := none, outputTranscription := some "!",
        turnComplete := true, audioData := none, interrupted := false } 0).1.currentOutputTranscription = "" :=
  turn_complete_finalizes_both_roles_and_resets
    { initState with
        currentInputTranscription := "Hi", currentOutputTranscription := "Hello" }
    { inputTranscription := none, outputTranscription := some "!",
      turnComplete := true, audioData := none, interrupted := false } 0 rfl

/-- C9: on a frame that carries both a delta and the turn-complete marker,
the delta is appended before finalization — the `isComplete = true` text
already contains the same frame's delta — and the finalizing callback for
the user role is emitted before the one for the model role: the callback
list is the partial updates followed by the user finalization and then the
model finalization. -/
theorem same_frame_delta_finalized_and_user_first
    (s : ServiceState) (m : ServerMessage) (now : ℚ)
    (h : m.turnComplete = true) :
    (handleMessage s m now).2 =
      (match m.inputTranscription with
        | some t =>
            [Callback.transcriptionUpdate Role.user (s.currentInputTranscription ++ t) false]
        | none => []) ++
      (match m.outputTranscription with
        | some t =>
            [Callback.transcriptionUpdate Role.model (s.currentOutputTranscription ++ t) false]
        | none => []) ++
      [Callback.transcriptionUpdate Role.user
        (s.currentInputTranscription ++ (m.inputTranscription.getD "")) true,
       Callback.transcriptionUpdate Role.model
        (s.currentOutputTranscription ++ (m.outputTranscription.getD "")) true] := by
  cases hi : m.inputTranscription <;> cases ho : m.outputTranscription <;>
    simp [handleMessage, applyInputDelta, applyOutputDelta, applyTurnComplete, h, hi, ho,
      String.append_empty]

/-- Witness for C9: a frame carrying a user delta, a model delta and the
turn-complete marker at once. -/
theorem same_frame_delta_finalized_and_user_first_witness :
    (handleMessage
      { initState with currentInputTranscription := "So" }
      { inputTranscription := some "rry", outputTranscription := some "Ok",
        turnComplete := true, audioData := none, interrupted := false } 0).2 =
      (match (some "rry" : Option String) with
        | some t => [Callback.transcriptionUpdate Role.user ("So" ++ t) false]
        | none => []) ++
      (match (some "Ok" : Option String) with
        | some t => [Callback.transcriptionUpdate Role.model ("" ++ t) false]
        | none => []) ++
      [Callback.transcriptionUpdate Role.user
        ("So" ++ ((some "rry" : Option String).getD "")) true,
       Callback.transcriptionUpdate Role.model
        ("" ++ ((some "Ok" : Option String).getD "")) true] :=
  same_frame_delta_finalized_and_user_first
    { initState with currentInputTranscription := "So" }
    { inputTranscription := some "rry", outputTranscription := some "Ok",
      turnComplete := true, audioData := none, interrupted := false } 0 rfl

/-- Witness for C4: an empty capture window against a torn-down and a live
service. -/
theorem sendFrame_sends_iff_still_active_witness :
    (({ initState with isActive := true } : ServiceState).isActive = true →
      sendFrame { initState with isActive := true }
        (some { closed := false, sendRealtimeInput := true }) (createBlob []) =
        some (createBlob [])) ∧
    (({ initState with isActive := true } : ServiceState).isActive = false →
      sendFrame { initState with isActive := true }
        (some { closed := false, sendRealtimeInput := true }) (createBlob []) = none) :=
  sendFrame_sends_iff_still_active { initState with isActive := true }
    { closed := false, sendRealtimeInput := true } [] rfl

/-- C8: across any sequence of inbound frames with no interruption signal
the playback scheduling cursor is monotonically non-decreasing — a single
audio chunk on an active session schedules its handle at
`max(cursor, current device playback time)` and advances the cursor by
that buffer's duration — and an interruption frame stops every currently
scheduled handle, clears the active set and resets the cursor to zero. -/
theorem playback_cursor_monotone_and_interrupt_resets
    (s : ServiceState) (m : ServerMessage) (now : ℚ)
    (ms : List (ServerMessage × ℚ)) (m2 : ServerMessage) (now2 : ℚ)
    (hni : m.interrupted = false)
    (hseq : ∀ p ∈ ms, (p : ServerMessage × ℚ).1.interrupted = false)
    (hint : m2.interrupted = true) :
    s.nextStartTime ≤ (handleMessage s m now).1.nextStartTime ∧
    s.nextStartTime ≤ (runMessages s ms).1.nextStartTime ∧
    (∀ n ctx, m.audioData = some n → s.outAudioContext = some ctx → s.isActive = true →
      (handleMessage s m now).1.sources =
        s.sources ++ [{ startTime := ratMax s.nextStartTime now,
                        duration := mkRat (n : Int) 24000, stopped := false }] ∧
      (handleMessage s m now).1.nextStartTime =
        ratMax s.nextStartTime now + mkRat (n : Int) 24000) ∧
    ((handleMessage s m2 now2).1.sources = [] ∧
     (handleMessage s m2 now2).1.nextStartTime = 0 ∧
     ∀ x ∈ s.sources,
       ({ x with stopped := true } : SourceNode) ∈ (handleMessage s m2 now2).1.stoppedSources) :=
  ⟨handleMessage_cursor_mono s m now hni,
   runMessages_cursor_mono ms s hseq,
   fun n ctx ha hctx hact => handleMessage_audio_schedule s m now n ctx ha hctx hact hni,
   handleMessage_interrupt_resets s m2 now2 hint⟩

/-- Witness for C8: an active session with one already-scheduled handle
receiving a 240-sample audio chunk, then an interruption frame. -/
theorem playback_cursor_monotone_and_interrupt_resets_witness :
    ({ initState with
        isActive := true,
        outAudioContext := some { sampleRate := 24000, suspended := false, closed := false },
        sources := [{ startTime := 0, duration := 1, stopped := false }] } :
      ServiceState).nextStartTime ≤
      (handleMessage
        { initState with
            isActive := true,
            outAudioContext := some { sampleRate := 24000, suspended := false, closed := false },
            sources := [{ startTime := 0, duration := 1, stopped := false }] }
        { inputTranscription := none, outputTranscription := none,
          turnComplete := false, audioData := some 240, interrupted := false }
        0).1.nextStartTime ∧
    ({ initState with
        isActive := true,
        outAudioContext := some { sampleRate := 24000, suspended := false, closed := false },
        sources := [{ startTime := 0, duration := 1, stopped := false }] } :
      ServiceState).nextStartTime ≤
      (runMessages
        { initState with
            isActive := true,
            outAudioContext := some { sampleRate := 24000, suspended := false, closed := false },
            sources := [{ startTime := 0, duration := 1, stopped := false }] }
        [({ inputTranscription := none, outputTranscription := none,
            turnComplete := false, audioData := some 240, interrupted := false }, 0)]).1.nextStartTime ∧
    (∀ n ctx,
      ({ inputTranscription := none, outputTranscription := none,
         turnComplete := false, audioData := some 240, interrupted := false } :
        ServerMessage).audioData = some n →
      ({ initState with
          isActive := true,
          outAudioContext := some { sampleRate := 24000, suspended := false, closed := false },
          sources := [{ startTime := 0, duration := 1, stopped := false }] } :
        ServiceState).outAudioContext = some ctx →
      ({ initState with
          isActive := true,
          outAudioContext := some { sampleRate := 24000, suspended := false, closed := false },
          sources := [{ startTime := 0, duration := 1, stopped := false }] } :
        ServiceState).isActive = true →
      (handleMessage
        { initState with
            isActive := true,
            outAudioContext := some { sampleRate := 24000, suspended := false, closed := false },
            sources := [{ startTime := 0, duration := 1, stopped := false }] }
        { inputTranscription := none, outputTranscription := none,
          turnComplete := false, audioData := some 240, interrupted := false }
        0).1.sources =
        ({ initState with
            isActive := true,
            outAudioContext := some { sampleRate := 24000, suspended := false, closed := false },
            sources := [{ startTime := 0, duration := 1, stopped := false }] } :
          ServiceState).sources ++
          [{ startTime := ratMax
                ({ initState with
                    isActive := true,
                    outAudioContext :=
                      some { sampleRate := 24000, suspended := false, closed := false },
                    sources := [{ startTime := 0, duration := 1, stopped := false }] } :
                  ServiceState).nextStartTime 0,
              duration := mkRat (n : Int) 24000, stopped := false }] ∧
      (handleMessage
        { initState with
            isActive := true,
            outAudioContext := some { sampleRate := 24000, suspended := false, closed := false },
            sources := [{ startTime := 0, duration := 1, stopped := false }] }
        { inputTranscription := none, outputTranscription := none,
          turnComplete := false, audioData := some 240, interrupted := false }
        0).1.nextStartTime =
        ratMax
          ({ initState with
              isActive := true,
              outAudioContext := some { sampleRate := 24000, suspended := false, closed := false },
              sources := [{ startTime := 0, duration := 1, stopped := false }] } :
            ServiceState).nextStartTime 0 + mkRat (n : Int) 24000) ∧
    ((handleMessage
        { initState with
            isActive := true,
            outAudioContext := some { sampleRate := 24000, suspended := false, closed := false },
            sources := [{ startTime := 0, duration := 1, stopped := false }] }
        { inputTranscription := none, outputTranscription := none,
          turnComplete := false, audioData := none, interrupted := true }
        2).1.sources = [] ∧
     (handleMessage
        { initState with
            isActive := true,
            outAudioContext := some { sampleRate := 24000, suspended := false, closed := false },
            sources := [{ startTime := 0, duration := 1, stopped := false }] }
        { inputTranscription := none, outputTranscription := none,
          turnComplete := false, audioData := none, interrupted := true }
        2).1.nextStartTime = 0 ∧
     ∀ x ∈ ({ initState with
          isActive := true,
          outAudioContext := some { sampleRate := 24000, suspended := false, closed := false },
          sources := [{ startTime := 0, duration := 1, stopped := false }] } :
        ServiceState).sources,
       ({ x with stopped := true } : SourceNode) ∈
         (handleMessage
           { initState with
               isActive := true,
               outAudioContext := some { sampleRate := 24000, suspended := false, closed := false },
               sources := [{ startTime := 0, duration := 1, stopped := false }] }
           { inputTranscription := none, outputTranscription := none,
             turnComplete := false, audioData := none, interrupted := true }
           2).1.stoppedSources) :=
  playback_cursor_monotone_and_interrupt_resets
    { initState with
        isActive := true,
        outAudioContext := some { sampleRate := 24000, suspended := false, closed := false },
        sources := [{ startTime := 0, duration := 1, stopped := false }] }
    { inputTranscription := none, outputTranscription := none,
      turnComplete := false, audioData := some 240, interrupted := false }
    0
    [({ inputTranscription := none, outputTranscription := none,
        turnComplete := false, audioData := some 240, interrupted := false }, 0)]
    { inputTranscription := none, outputTranscription := none,
      turnComplete := false, audioData := none, interrupted := true }
    2 rfl (by decide) rfl

/-- The catch clause's reported message is never empty. -/
theorem fallback_msg_ne (msg : String) : (if msg = "" then "Connect failed" else msg) ≠ "" := by
  by_cases h : msg = ""
  · rw [if_pos h]
    decide
  · rw [if_neg h]
    exact h

/-- C5 counterexample: with the API key present and both device contexts
constructed, a denied microphone permission makes `connect` report status
`error` with a descriptive message — but both audio device contexts opened
earlier in setup remain live (not closed), so a resource acquired earlier
in setup does remain live, contrary to the claim. -/
theorem connect_mic_denied_leaves_device_contexts_open :
    (connect initState []
      { apiKeyPresent := true, ctxOk := true, micGranted := false, streamOk := true,
        micTracks := [], ctxErrMsg := "", micErrMsg := "Permission denied",
        streamErrMsg := "" }).callbacks =
      [Callback.statusChange Status.connecting none,
       Callback.statusChange Status.error (some "Permission denied")] ∧
    (connect initState []
      { apiKeyPresent := true, ctxOk := true, micGranted := false, streamOk := true,
        micTracks := [], ctxErrMsg := "", micErrMsg := "Permission denied",
        streamErrMsg := "" }).state.audioContext =
      some { sampleRate := 16000, suspended := false, closed := false } ∧
    (connect initState []
      { apiKeyPresent := true, ctxOk := true, micGranted := false, streamOk := true,
        micTracks := [], ctxErrMsg := "", micErrMsg := "Permission denied",
        streamErrMsg := "" }).state.outAudioContext =
      some { sampleRate := 24000, suspended := false, closed := false } := by
  refine ⟨?_, ?_, ?_⟩ <;> decide

/-- C5 (amended): for every setup failure during `connect` (missing API
key, device-context construction failure, or denied microphone
permission), the manager reports status `error` with a descriptive
(nonempty) message as the last callback of the call, no stream is opened
and no session handle is stored, the liveness flag is cleared and the call
rethrows — but resources acquired earlier in setup are not released by
`connect` itself (see the counterexample: after a denied microphone both
opened device contexts remain live until `stopAll`). -/
theorem connect_setup_failure_reports_error_before_stream
    (s : ServiceState) (history : List ChatTurn) (env : ConnectEnv)
    (hsess : s.session = none)
    (hfail : env.apiKeyPresent = false ∨ env.ctxOk = false ∨ env.micGranted = false) :
    (∃ msg, msg ≠ "" ∧
      (connect s history env).callbacks =
        [Callback.statusChange
          (if history.length > 0 then Status.reconnecting else Status.connecting) none,
         Callback.statusChange Status.error (some msg)]) ∧
    (connect s history env).streamOpened = false ∧
    (connect s history env).state.session = none ∧
    (connect s history env).state.isActive = false ∧
    (connect s history env).threw = true := by
  by_cases happ : env.apiKeyPresent = true
  · by_cases hctx : env.ctxOk = true
    · by_cases hmic : env.micGranted = true
      · exfalso
        rcases hfail with h | h | h <;> simp_all
      · refine ⟨⟨if env.micErrMsg = "" then "Connect failed" else env.micErrMsg,
          fallback_msg_ne _, ?_⟩, ?_, ?_, ?_, ?_⟩ <;>
          simp [connect, connectCatch, happ, hctx, hmic, hsess]
    · refine ⟨⟨if env.ctxErrMsg = "" then "Connect failed" else env.ctxErrMsg,
        fallback_msg_ne _, ?_⟩, ?_, ?_, ?_, ?_⟩ <;>
        simp [connect, connectCatch, happ, hctx, hsess]
  · refine ⟨⟨"API Key missing", by decide, ?_⟩, ?_, ?_, ?_, ?_⟩ <;>
      simp [connect, connectCatch, happ, hsess]

/-- Witness for C5 (amended): a fresh service connecting with no history
and a missing API key. -/
theorem connect_setup_failure_reports_error_before_stream_witness :
    (∃ msg, msg ≠ "" ∧
      (connect initState []
        { apiKeyPresent := false, ctxOk := true, micGranted := true, streamOk := true,
          micTracks := [], ctxErrMsg := "", micErrMsg := "", streamErrMsg := "" }).callbacks =
        [Callback.statusChange
          (if ([] : List ChatTurn).length > 0 then Status.reconnecting else Status.connecting)
          none,
         Callback.statusChange Status.error (some msg)]) ∧
    (connect initState []
      { apiKeyPresent := false, ctxOk := true, micGranted := true, streamOk := true,
        micTracks := [], ctxErrMsg := "", micErrMsg := "", streamErrMsg := "" }).streamOpened =
      false ∧
    (connect initState []
      { apiKeyPresent := false, ctxOk := true, micGranted := true, streamOk := true,
        micTracks := [], ctxErrMsg := "", micErrMsg := "", streamErrMsg := "" }).state.session =
      none ∧
    (connect initState []
      { apiKeyPresent := false, ctxOk := true, micGranted := true, streamOk := true,
        micTracks := [], ctxErrMsg := "", micErrMsg := "", streamErrMsg := "" }).state.isActive =
      false ∧
    (connect initState []
      { apiKeyPresent := false, ctxOk := true, micGranted := true, streamOk := true,
        micTracks := [], ctxErrMsg := "", micErrMsg := "", streamErrMsg := "" }).threw = true :=
  connect_setup_failure_reports_error_before_stream initState []
    { apiKeyPresent := false, ctxOk := true, micGranted := true, streamOk := true,
      micTracks := [], ctxErrMsg := "", micErrMsg := "", streamErrMsg := "" }
    rfl (Or.inl rfl)

/-- C10: `encode` clamps each sample to [-1, 1] and scales to the signed
16-bit range — for every input the per-sample value lies in
[-32768, 32767], so over-range input is clamped, never wrapped — and
serializes little-endian at two bytes per sample; it is a pure function of
its input.  On the spec's example `[0.5, -1.0, 1.5]` it produces exactly
the little-endian 16-bit samples 0x3FFF, 0x8000 and 0x7FFF. -/
theorem encode_pcm16le_spec :
    encode [mkRat 1 2, -1, mkRat 3 2] = [0xFF, 0x3F, 0x00, 0x80, 0xFF, 0x7F] ∧
    (∀ x : ℚ, -32768 ≤ toInt16 x ∧ toInt16 x ≤ 32767) ∧
    (∀ samples : List ℚ, (encode samples).length = 2 * samples.length) := by
  refine ⟨by decide, ?_, encode_length⟩
  intro x
  exact scaleTo16_bounds (clampSample x) (clampSample_bounds x).1 (clampSample_bounds x).2

/-- Witness for C2: a fully populated live session torn down by `stopAll`. -/
theorem stopAll_idempotent_and_tears_down_witness :
    stopAll (stopAll
      { initState with
          isActive := true, keepAliveInterval := some 3,
          session := some { closed := false, sendRealtimeInput := true },
          audioContext := some { sampleRate := 16000, suspended := false, closed := false },
          outAudioContext := some { sampleRate := 24000, suspended := false, closed := false },
          micStream := some { tracks := [{ stopped := false }, { stopped := false }] },
          scriptProcessor := some { connected := true },
          sources := [{ startTime := 0, duration := 1, stopped := false }] }) =
      stopAll
      { initState with
          isActive := true, keepAliveInterval := some 3,
          session := some { closed := false, sendRealtimeInput := true },
          audioContext := some { sampleRate := 16000, suspended := false, closed := false },
          outAudioContext := some { sampleRate := 24000, suspended := false, closed := false },
          micStream := some { tracks := [{ stopped := false }, { stopped := false }] },
          scriptProcessor := some { connected := true },
          sources := [{ startTime := 0, duration := 1, stopped := false }] } ∧
    (stopAll
      { initState with
          isActive := true, keepAliveInterval := some 3,
          session := some { closed := false, sendRealtimeInput := true },
          audioContext := some { sampleRate := 16000, suspended := false, closed := false },
          outAudioContext := some { sampleRate := 24000, suspended := false, closed := false },
          micStream := some { tracks := [{ stopped := false }, { stopped := false }] },
          scriptProcessor := some { connected := true },
          sources := [{ startTime := 0, duration := 1, stopped := false }] }).sources = [] ∧
    (stopAll
      { initState with
          isActive := true, keepAliveInterval := some 3,
          session := some { closed := false, sendRealtimeInput := true },
          audioContext := some { sampleRate := 16000, suspended := false, closed := false },
          outAudioContext := some { sampleRate := 24000, suspended := false, closed := false },
          micStream := some { tracks := [{ stopped := false }, { stopped := false }] },
          scriptProcessor := some { connected := true },
          sources := [{ startTime := 0, duration := 1, stopped := false }] }).isActive = false ∧
    (stopAll
      { initState with
          isActive := true, keepAliveInterval := some 3,
          session := some { closed := false, sendRealtimeInput := true },
          audioContext := some { sampleRate := 16000, suspended := false, closed := false },
          outAudioContext := some { sampleRate := 24000, suspended := false, closed := false },
          micStream := some { tracks := [{ stopped := false }, { stopped := false }] },
          scriptProcessor := some { connected := true },
          sources := [{ startTime := 0, duration := 1, stopped := false }] }).keepAliveInterval =
      none ∧
    (∀ c, (stopAll
      { initState with
          isActive := true, keepAliveInterval := some 3,
          session := some { closed := false, sendRealtimeInput := true },
          audioContext := some { sampleRate := 16000, suspended := false, closed := false },
          outAudioContext := some { sampleRate := 24000, suspended := false, closed := false },
          micStream := some { tracks := [{ stopped := false }, { stopped := false }] },
          scriptProcessor := some { connected := true },
          sources := [{ startTime := 0, duration := 1, stopped := false }] }).audioContext =
        some c → c.closed = true) ∧
    (∀ c, (stopAll
      { initState with
          isActive := true, keepAliveInterval := some 3,
          session := some { closed := false, sendRealtimeInput := true },
          audioContext := some { sampleRate := 16000, suspended := false, closed := false },
          outAudioContext := some { sampleRate := 24000, suspended := false, closed := false },
          micStream := some { tracks := [{ stopped := false }, { stopped := false }] },
          scriptProcessor := some { connected := true },
          sources := [{ startTime := 0, duration := 1, stopped := false }] }).outAudioContext =
        some c → c.closed = true) ∧
    (stopAll
      { initState with
          isActive := true, keepAliveInterval := some 3,
          session := some { closed := false, sendRealtimeInput := true },
          audioContext := some { sampleRate := 16000, suspended := false, closed := false },
          outAudioContext := some { sampleRate := 24000, suspended := false, closed := false },
          micStream := some { tracks := [{ stopped := false }, { stopped := false }] },
          scriptProcessor := some { connected := true },
          sources := [{ startTime := 0, duration := 1, stopped := false }] }).scriptProcessor =
      none ∧
    (∀ p, p ∈ (stopAll
      { initState with
          isActive := true, keepAliveInterval := some 3,
          session := some { closed := false, sendRealtimeInput := true },
          audioContext := some { sampleRate := 16000, suspended := false, closed := false },
          outAudioContext := some { sampleRate := 24000, suspended := false, closed := false },
          micStream := some { tracks := [{ stopped := false }, { stopped := false }] },
          scriptProcessor := some { connected := true },
          sources := [{ startTime := 0, duration := 1, stopped := false }] }).releasedProcessors →
      p ∈ ({ initState with
          isActive := true, keepAliveInterval := some 3,
          session := some { closed := false, sendRealtimeInput := true },
          audioContext := some { sampleRate := 16000, suspended := false, closed := false },
          outAudioContext := some { sampleRate := 24000, suspended := false, closed := false },
          micStream := some { tracks := [{ stopped := false }, { stopped := false }] },
          scriptProcessor := some { connected := true },
          sources := [{ startTime := 0, duration := 1, stopped := false }] } :
        ServiceState).releasedProcessors ∨ p.connected = false) ∧
    (stopAll
      { initState with
          isActive := true, keepAliveInterval := some 3,
          session := some { closed := false, sendRealtimeInput := true },
          audioContext := some { sampleRate := 16000, suspended := false, closed := false },
          outAudioContext := some { sampleRate := 24000, suspended := false, closed := false },
          micStream := some { tracks := [{ stopped := false }, { stopped := false }] },
          scriptProcessor := some { connected := true },
          sources := [{ startTime := 0, duration := 1, stopped := false }] }).micStream = none ∧
    (∀ t, t ∈ (stopAll
      { initState with
          isActive := true, keepAliveInterval := some 3,
          session := some { closed := false, sendRealtimeInput := true },
          audioContext := some { sampleRate := 16000, suspended := false, closed := false },
          outAudioContext := some { sampleRate := 24000, suspended := false, closed := false },
          micStream := some { tracks := [{ stopped := false }, { stopped := false }] },
          scriptProcessor := some { connected := true },
          sources := [{ startTime := 0, duration := 1, stopped := false }] }).releasedTracks →
      t ∈ ({ initState with
          isActive := true, keepAliveInterval := some 3,
          session := some { closed := false, sendRealtimeInput := true },
          audioContext := some { sampleRate := 16000, suspended := false, closed := false },
          outAudioContext := some { sampleRate := 24000, suspended := false, closed := false },
          micStream := some { tracks := [{ stopped := false }, { stopped := false }] },
          scriptProcessor := some { connected := true },
          sources := [{ startTime := 0, duration := 1, stopped := false }] } :
        ServiceState).releasedTracks ∨ t.stopped = true) :=
  stopAll_idempotent_and_tears_down
    { initState with
        isActive := true, keepAliveInterval := some 3,
        session := some { closed := false, sendRealtimeInput := true },
        audioContext := some { sampleRate := 16000, suspended := false, closed := false },
        outAudioContext := some { sampleRate := 24000, suspended := false, closed := false },
        micStream := some { tracks := [{ stopped := false }, { stopped := false }] },
        scriptProcessor := some { connected := true },
        sources := [{ startTime := 0, duration := 1, stopped := false }] }

end SpeakToday
